import Mathlib

/-!
Verification of the guarded tool-orchestration layer of the NL2SQL
e-commerce analytics agent (`ecom_agent/agent.py`).

The Python tool bodies are shallowly embedded as pure Lean functions.
The BigQuery store client is passed in as an explicit parameter
(`runQuery` / `getTable` / `listTablesClient`): a store call that raises
is modelled as `Except.error msg`, matching the `except Exception as e`
handlers in the source.  `execute_sql` additionally returns the list of
query strings it submitted to the store client, so that "the store is
never contacted on a blocked path" is expressible.
-/

namespace EcomAgent

/-- Python `str.upper()` restricted to the ASCII range (the forbidden
keywords are all ASCII, so this is faithful on every character that can
affect the guardrail). -/
def pyUpper (s : String) : String := String.mk (s.data.map Char.toUpper)

/-- Drop leading and trailing whitespace from a character list. -/
def stripChars (l : List Char) : List Char :=
  ((l.dropWhile Char.isWhitespace).reverse.dropWhile Char.isWhitespace).reverse

/-- Python `str.strip()`: remove leading and trailing whitespace. -/
def pyStrip (s : String) : String := String.mk (stripChars s.data)

/-- Split a character list on runs of whitespace, discarding empty
tokens; `cur` accumulates the current token in reverse. -/
def splitWsAux : List Char → List Char → List (List Char)
  | [], cur => if cur.isEmpty then [] else [cur.reverse]
  | c :: cs, cur =>
      if c.isWhitespace then
        if cur.isEmpty then splitWsAux cs []
        else cur.reverse :: splitWsAux cs []
      else splitWsAux cs (c :: cur)

/-- Python `str.split()` with no separator argument: split on runs of
whitespace, discarding empty tokens. -/
def pySplit (s : String) : List String :=
  (splitWsAux s.data []).map (fun t => String.mk t)

/-- `PROJECT_ID` configuration constant from the source. -/
def PROJECT_ID : String := "playground-s-11-6d7b503d"

/-- `DATASET_ID` configuration constant from the source. -/
def DATASET_ID : String := "ecom_analytics"

/-- The ordered policy list `BLOCKED_KEYWORDS` from the source. -/
def BLOCKED_KEYWORDS : List String :=
  ["DELETE", "DROP", "TRUNCATE", "UPDATE", "INSERT",
   "ALTER", "CREATE", "MERGE", "GRANT", "REVOKE"]

/-- A column descriptor as reported by `get_schema`: the
`name` / `field_type` / `mode` projection of a BigQuery `SchemaField`. -/
structure Column where
  name : String
  field_type : String
  mode : String
  deriving DecidableEq

/-- A result row.  BigQuery rows are opaque to the agent code (it only
builds `dict(row)`, counts them and truncates the list), so the carrier
of a row is an uninterpreted association list. -/
structure Row where
  fields : List (String × String)
  deriving DecidableEq

/-- A value stored in a result-envelope dictionary. -/
inductive Value where
  | str (s : String)
  | nat (n : Nat)
  | strList (l : List String)
  | rowList (l : List Row)
  | colList (l : List Column)
  deriving DecidableEq

/-- A Python dictionary in insertion order: the shape of every tool
result in the source. -/
abbrev Dict := List (String × Value)

/-- A single ASCII apostrophe, as interpolated by the f-string in the
blocked branch of `execute_sql`. -/
def sq : String := String.singleton (Char.ofNat 39)

/-- The message of the blocked envelope built by `execute_sql`
(the two adjacent f-string literals concatenated). -/
def blockedMessage (keyword : String) : String :=
  "Query blocked: contains " ++ sq ++ keyword ++ sq ++
    " operation. This agent is read-only and cannot modify data."

/-- The guardrail loop of `execute_sql`: normalise the query
(`query.upper().strip()`), then return the first keyword of
`BLOCKED_KEYWORDS` that occurs in `sql_upper.split()`
(Python `keyword in sql_upper.split()` is list membership). -/
def guardCheck (query : String) : Option String :=
  let sql_upper := pyStrip (pyUpper query)
  BLOCKED_KEYWORDS.find? (fun keyword => decide (keyword ∈ pySplit sql_upper))

/-- Embedding of `execute_sql`.  `runQuery` is the store client's query
entry point (`bq_client.query(...).result()` materialised to a row list,
or the stringified exception).  The second component of the result is
the list of query strings submitted to the store client on this call. -/
def execute_sql (runQuery : String → Except String (List Row)) (query : String) :
    Dict × List String :=
  match guardCheck query with
  | some keyword =>
      ([("status", Value.str "blocked"),
        ("message", Value.str (blockedMessage keyword))], [])
  | none =>
      match runQuery query with
      | Except.ok rows =>
          ([("status", Value.str "success"),
            ("row_count", Value.nat rows.length),
            ("results", Value.rowList (rows.take 50))], [query])
      | Except.error e =>
          ([("status", Value.str "error"),
            ("message", Value.str e)], [query])

/-- Table metadata as returned by the store client's `get_table`:
the declared schema (ordered) and `num_rows`. -/
structure Table where
  schema : List Column
  num_rows : Nat
  deriving DecidableEq

/-- Embedding of `get_schema`.  `getTable` is the store client's
`get_table`; any exception it raises is the `Except.error` case. -/
def get_schema (getTable : String → Except String Table) (table_name : String) : Dict :=
  let table_ref := PROJECT_ID ++ "." ++ DATASET_ID ++ "." ++ table_name
  match getTable table_ref with
  | Except.ok table =>
      [("status", Value.str "success"),
       ("table", Value.str table_ref),
       ("total_rows", Value.nat table.num_rows),
       ("columns", Value.colList
          (table.schema.map (fun field => Column.mk field.name field.field_type field.mode)))]
  | Except.error e =>
      [("status", Value.str "error"), ("message", Value.str e)]

/-- Embedding of `list_tables`.  `listTablesClient` is the store
client's `list_tables` with the `t.table_id` projection already applied
(the source immediately maps each returned object to its `table_id`). -/
def list_tables (listTablesClient : String → Except String (List String)) : Dict :=
  match listTablesClient (PROJECT_ID ++ "." ++ DATASET_ID) with
  | Except.ok tables =>
      [("status", Value.str "success"),
       ("dataset", Value.str (PROJECT_ID ++ "." ++ DATASET_ID)),
       ("tables", Value.strList tables)]
  | Except.error e =>
      [("status", Value.str "error"), ("message", Value.str e)]

/-- Modelled from the spec: the interface of the external store client
(§6) together with the Reviewer adapter body, the four invocation
targets behind the Orchestrator registry.  The reviewer body is an
opaque envelope-producing function: its output is advisory and the
Orchestrator never branches on it. -/
structure Store where
  runQuery : String → Except String (List Row)
  getTable : String → Except String Table
  listTablesClient : String → Except String (List String)
  validate : String → Dict

/-- Modelled from the spec: an Audit Record — tool name plus the
truncated argument preview (pre-call) or truncated result preview
(post-call). -/
inductive AuditRecord where
  | pre (tool : String) (argsPreview : String)
  | post (tool : String) (resultPreview : String)
  deriving DecidableEq

/-- An observable event of one dispatch: an audit record arriving at
the audit sink, or a query string submitted to the store client.  The
order of the event list is the order in which the effects happen. -/
inductive Event where
  | audit (r : AuditRecord)
  | storeCall (query : String)
  deriving DecidableEq

/-- A rendering of an envelope value for the audit preview (the spec
fixes only that previews are truncated text, not their exact format). -/
def Value.render : Value → String
  | Value.str s => s
  | Value.nat n => toString n
  | Value.strList l => String.intercalate ", " l
  | Value.rowList l => toString l.length ++ " rows"
  | Value.colList l => String.intercalate ", " (l.map Column.name)

/-- Render a result envelope for the audit preview. -/
def renderDict (d : Dict) : String :=
  String.intercalate ", " (d.map (fun kv => kv.1 ++ "=" ++ kv.2.render))

/-- Modelled from the spec: preview truncation to a fixed length
(Python `str(x)[:n]` in the callbacks). -/
def preview (n : Nat) (s : String) : String := String.mk (s.data.take n)

/-- Modelled from the spec: the Orchestrator's tool registry, built
once from the fixed list of three Data Tools plus the Reviewer
adapter. -/
def registry : List String := ["list_tables", "get_schema", "execute_sql", "sql_validator"]

/-- Modelled from the spec: the body a registered tool name resolves
to.  Returns the Result Envelope and the list of query strings
submitted to the store client while the body ran. -/
def toolBody (st : Store) (name : String) (arg : String) : Dict × List String :=
  if name = "execute_sql" then execute_sql st.runQuery arg
  else if name = "get_schema" then (get_schema st.getTable arg, [])
  else if name = "list_tables" then (list_tables st.listTablesClient, [])
  else (st.validate arg, [])

/-- Modelled from the spec: emitting one audit record to the sink.
`logFails r = true` means the sink raised while receiving `r`; the
failure is swallowed and the record is lost. -/
def emitRecord (logFails : AuditRecord → Bool) (r : AuditRecord) : List Event :=
  if logFails r then [] else [Event.audit r]

/-- Modelled from the spec: `Orchestrator.dispatch(name, arg)`.
Unknown names return the error envelope without invoking any hook;
known names run pre-hook, tool body, post-hook, and return the body's
envelope unchanged.  The event list records, in order, the audit
records that reached the sink and the store calls the body made. -/
def dispatch (st : Store) (logFails : AuditRecord → Bool) (name : String) (arg : String) :
    Dict × List Event :=
  if name ∈ registry then
    let body := toolBody st name arg
    let preR := AuditRecord.pre name (preview 200 arg)
    let postR := AuditRecord.post name (preview 300 (renderDict body.1))
    (body.1, emitRecord logFails preR ++ body.2.map Event.storeCall ++ emitRecord logFails postR)
  else
    ([("status", Value.str "error"), ("message", Value.str "unknown tool")], [])

/-- A concrete store used by the witness theorems. -/
def sampleStore : Store :=
  ⟨fun _ => Except.ok [], fun _ => Except.error "not found",
   fun _ => Except.ok ["orders"], fun _ => [("status", Value.str "success")]⟩

/-- Rows used by the truncation witness: sixty empty rows. -/
def sampleRows : List Row := List.replicate 60 (Row.mk [])

/-- C1: a query containing a forbidden keyword as a standalone
whitespace-delimited token of the normalised query makes `execute_sql`
return the Blocked envelope, and the store client is never invoked
(the submitted-query list is empty). -/
theorem c1_blocked_never_reaches_store
    (runQuery : String → Except String (List Row)) (query : String)
    (h : ∃ keyword ∈ BLOCKED_KEYWORDS,
        keyword ∈ pySplit (pyStrip (pyUpper query))) :
    (∃ keyword, (execute_sql runQuery query).1
        = [("status", Value.str "blocked"),
           ("message", Value.str (blockedMessage keyword))]) ∧
    (execute_sql runQuery query).2 = [] := by
  have hsome : (guardCheck query).isSome := by
    unfold guardCheck
    rw [List.find?_isSome]
    obtain ⟨k, hk, ht⟩ := h
    exact ⟨k, hk, by simpa using ht⟩
  cases hg : guardCheck query with
  | none => rw [hg] at hsome; simp at hsome
  | some k => exact ⟨⟨k, by simp [execute_sql, hg]⟩, by simp [execute_sql, hg]⟩

/-- Witness for C1 at the query `DELETE FROM orders`. -/
theorem c1_witness :
    (∃ keyword ∈ BLOCKED_KEYWORDS,
        keyword ∈ pySplit (pyStrip (pyUpper "DELETE FROM orders"))) ∧
    ((∃ keyword, (execute_sql sampleStore.runQuery "DELETE FROM orders").1
        = [("status", Value.str "blocked"),
           ("message", Value.str (blockedMessage keyword))]) ∧
      (execute_sql sampleStore.runQuery "DELETE FROM orders").2 = []) :=
  ⟨by decide,
   c1_blocked_never_reaches_store sampleStore.runQuery "DELETE FROM orders" (by decide)⟩

/-- C2: on a successful call the envelope reports the full row count
while `results` is exactly the first `min n 50` rows in store order;
for more than 50 rows the payload length is exactly 50. -/
theorem c2_row_count_full_results_capped
    (runQuery : String → Except String (List Row)) (query : String) (rows : List Row)
    (hguard : guardCheck query = none) (hstore : runQuery query = Except.ok rows) :
    (execute_sql runQuery query).1
      = [("status", Value.str "success"),
         ("row_count", Value.nat rows.length),
         ("results", Value.rowList (rows.take 50))] ∧
    (rows.take 50).length = min rows.length 50 ∧
    (50 < rows.length → (rows.take 50).length = 50) := by
  refine ⟨by simp [execute_sql, hguard, hstore], ?_, ?_⟩
  · rw [List.length_take, Nat.min_comm]
  · intro hlen
    rw [List.length_take]
    omega

/-- Witness for C2: a 60-row result is reported with `row_count = 60`
and a 50-row payload. -/
theorem c2_witness :
    guardCheck "SELECT 1" = none ∧
    (fun _ : String => (Except.ok sampleRows : Except String (List Row))) "SELECT 1"
        = Except.ok sampleRows ∧
    ((execute_sql (fun _ => Except.ok sampleRows) "SELECT 1").1
        = [("status", Value.str "success"),
           ("row_count", Value.nat sampleRows.length),
           ("results", Value.rowList (sampleRows.take 50))] ∧
      (sampleRows.take 50).length = min sampleRows.length 50 ∧
      (50 < sampleRows.length → (sampleRows.take 50).length = 50)) :=
  ⟨by decide, rfl,
   c2_row_count_full_results_capped (fun _ => Except.ok sampleRows) "SELECT 1" sampleRows
     (by decide) rfl⟩

/-- C3: if no forbidden keyword is a whole token of the normalised
query (in particular when every occurrence is a proper substring of a
larger token, such as `update_count`), the guardrail allows the query
and `execute_sql` submits it to the store client. -/
theorem c3_substring_only_is_allowed
    (runQuery : String → Except String (List Row)) (query : String)
    (h : ∀ keyword ∈ BLOCKED_KEYWORDS,
        keyword ∉ pySplit (pyStrip (pyUpper query))) :
    guardCheck query = none ∧ (execute_sql runQuery query).2 = [query] := by
  have hg : guardCheck query = none := by
    unfold guardCheck
    rw [List.find?_eq_none]
    intro x hx
    simpa using h x hx
  refine ⟨hg, ?_⟩
  cases hq : runQuery query <;> simp [execute_sql, hg, hq]

/-- Witness for C3 at the query `SELECT update_count FROM orders`. -/
theorem c3_witness :
    (∀ keyword ∈ BLOCKED_KEYWORDS,
        keyword ∉ pySplit (pyStrip (pyUpper "SELECT update_count FROM orders"))) ∧
    (guardCheck "SELECT update_count FROM orders" = none ∧
      (execute_sql sampleStore.runQuery "SELECT update_count FROM orders").2
        = ["SELECT update_count FROM orders"]) :=
  ⟨by decide,
   c3_substring_only_is_allowed sampleStore.runQuery "SELECT update_count FROM orders"
     (by decide)⟩

/-- C10: a forbidden keyword fused to punctuation is not a whole
whitespace-delimited token, so the guardrail allows the query and
`execute_sql` submits it to the store: witnessed by
`DELETE;FROM orders`. -/
theorem c10_punctuation_fused_keyword_bypasses_guard :
    guardCheck "DELETE;FROM orders" = none ∧
    (execute_sql (fun _ => Except.ok []) "DELETE;FROM orders").2
      = ["DELETE;FROM orders"] ∧
    ((execute_sql (fun _ => Except.ok []) "DELETE;FROM orders").1.filter
        (fun kv => kv.1 = "status"))
      = [("status", Value.str "success")] := by
  decide

/-- C4: every invocation of each of the three Data Tools returns an
envelope dictionary carrying the key `status` exactly once, with a
value among `success` / `blocked` / `error`; store failures are
consumed as the `Except.error` case, so no exception escapes the tool
boundary. -/
theorem c4_every_tool_returns_tagged_envelope :
    (∀ (runQuery : String → Except String (List Row)) (query : String),
      ∃ s ∈ (["success", "blocked", "error"] : List String),
        ((execute_sql runQuery query).1.filter (fun kv => kv.1 = "status"))
          = [("status", Value.str s)]) ∧
    (∀ (getTable : String → Except String Table) (table_name : String),
      ∃ s ∈ (["success", "blocked", "error"] : List String),
        ((get_schema getTable table_name).filter (fun kv => kv.1 = "status"))
          = [("status", Value.str s)]) ∧
    (∀ (listTablesClient : String → Except String (List String)),
      ∃ s ∈ (["success", "blocked", "error"] : List String),
        ((list_tables listTablesClient).filter (fun kv => kv.1 = "status"))
          = [("status", Value.str s)]) := by
  refine ⟨?_, ?_, ?_⟩
  · intro runQuery query
    cases hg : guardCheck query with
    | some k => exact ⟨"blocked", by simp, by simp [execute_sql, hg]⟩
    | none =>
        cases hq : runQuery query with
        | ok rows => exact ⟨"success", by simp, by simp [execute_sql, hg, hq]⟩
        | error e => exact ⟨"error", by simp, by simp [execute_sql, hg, hq]⟩
  · intro getTable table_name
    cases ht : getTable (PROJECT_ID ++ "." ++ DATASET_ID ++ "." ++ table_name) with
    | ok table => exact ⟨"success", by simp, by simp [get_schema, ht]⟩
    | error e => exact ⟨"error", by simp, by simp [get_schema, ht]⟩
  · intro listTablesClient
    cases hl : listTablesClient (PROJECT_ID ++ "." ++ DATASET_ID) with
    | ok tables => exact ⟨"success", by simp, by simp [list_tables, hl]⟩
    | error e => exact ⟨"error", by simp, by simp [list_tables, hl]⟩

/-- `List.find?` returns the element `a` when `a` matches and every
element of the prefix strictly before `a` does not match. -/
theorem find?_first_match {α : Type} [DecidableEq α] (p : α → Bool) :
    ∀ (l : List α) (a : α), a ∈ l → p a = true →
      (∀ b ∈ l.takeWhile (fun x => decide (x ≠ a)), p b = false) →
      l.find? p = some a := by
  intro l
  induction l with
  | nil => intro a ha _ _; cases ha
  | cons c t ih =>
      intro a ha hpa hbefore
      by_cases hca : c = a
      · subst hca
        simp [List.find?_cons, hpa]
      · have hpc : p c = false := by
          apply hbefore
          simp [List.takeWhile_cons, hca]
        have hat : a ∈ t := by
          rcases List.mem_cons.mp ha with h | h
          · exact absurd h.symm hca
          · exact h
        rw [List.find?_cons, hpc]
        apply ih a hat hpa
        intro b hb
        apply hbefore
        have hcons : List.takeWhile (fun x => decide (x ≠ a)) (c :: t)
            = c :: List.takeWhile (fun x => decide (x ≠ a)) t := by
          simp [List.takeWhile_cons, hca]
        rw [hcons]
        exact List.mem_cons_of_mem c hb

/-- C5: the guard is a pure function of the query string, and when a
keyword is a whole token of the normalised query while every keyword
listed before it in `BLOCKED_KEYWORDS` is not, the reported rule is
that keyword — the first match in policy-list order, independent of
token positions in the query; on this blocked path the envelope is
independent of the store client. -/
theorem c5_guard_deterministic_first_rule
    (query keyword : String)
    (hmem : keyword ∈ BLOCKED_KEYWORDS)
    (htok : keyword ∈ pySplit (pyStrip (pyUpper query)))
    (hearlier : ∀ k ∈ BLOCKED_KEYWORDS.takeWhile (fun x => decide (x ≠ keyword)),
        k ∉ pySplit (pyStrip (pyUpper query))) :
    guardCheck query = some keyword ∧
    (∀ st1 st2 : String → Except String (List Row),
      (execute_sql st1 query).1 = (execute_sql st2 query).1) := by
  have hg : guardCheck query = some keyword := by
    unfold guardCheck
    apply find?_first_match
    · exact hmem
    · simpa using htok
    · intro b hb
      simpa using hearlier b hb
  exact ⟨hg, fun st1 st2 => by simp [execute_sql, hg]⟩

/-- Witness for C5: `SELECT UPDATE DROP` contains both `UPDATE` and
`DROP` as tokens; the reported rule is `DROP`, which precedes `UPDATE`
in the policy list even though it occurs later in the query. -/
theorem c5_witness :
    ("DROP" ∈ BLOCKED_KEYWORDS) ∧
    ("DROP" ∈ pySplit (pyStrip (pyUpper "SELECT UPDATE DROP"))) ∧
    (∀ k ∈ BLOCKED_KEYWORDS.takeWhile (fun x => decide (x ≠ "DROP")),
        k ∉ pySplit (pyStrip (pyUpper "SELECT UPDATE DROP"))) ∧
    (guardCheck "SELECT UPDATE DROP" = some "DROP" ∧
      ∀ st1 st2 : String → Except String (List Row),
        (execute_sql st1 "SELECT UPDATE DROP").1
          = (execute_sql st2 "SELECT UPDATE DROP").1) :=
  ⟨by decide, by decide, by decide,
   c5_guard_deterministic_first_rule "SELECT UPDATE DROP" "DROP"
     (by decide) (by decide) (by decide)⟩

/-- C6 counterexample: for `DELETE FROM orders` the blocked envelope
has exactly the keys `status` and `message`; there is no `rule` key, so
the violated rule identifier is not a machine-checkable field. -/
theorem c6_counterexample_no_rule_field :
    ((execute_sql sampleStore.runQuery "DELETE FROM orders").1.map Prod.fst)
      = ["status", "message"] ∧
    ((execute_sql sampleStore.runQuery "DELETE FROM orders").1.filter
        (fun kv => kv.1 = "rule")) = [] ∧
    ((execute_sql sampleStore.runQuery "DELETE FROM orders").1.filter
        (fun kv => kv.1 = "status")) = [("status", Value.str "blocked")] := by
  decide

/-- C6 amended: every blocked envelope consists of the `blocked`
status and a human-readable message, and the matched keyword is
embedded in that message (as the substring between the quotes) rather
than carried as a separate field. -/
theorem c6_blocked_rule_embedded_in_message
    (runQuery : String → Except String (List Row)) (query keyword : String)
    (h : guardCheck query = some keyword) :
    (execute_sql runQuery query).1
      = [("status", Value.str "blocked"),
         ("message", Value.str (blockedMessage keyword))] ∧
    (∃ s1 s2, blockedMessage keyword = s1 ++ (keyword ++ s2)) := by
  refine ⟨by simp [execute_sql, h], ?_⟩
  refine ⟨"Query blocked: contains " ++ sq,
    sq ++ " operation. This agent is read-only and cannot modify data.", ?_⟩
  simp [blockedMessage, String.append_assoc]

/-- Witness for C6 amended at the query `DELETE FROM orders`. -/
theorem c6_witness :
    guardCheck "DELETE FROM orders" = some "DELETE" ∧
    ((execute_sql sampleStore.runQuery "DELETE FROM orders").1
        = [("status", Value.str "blocked"),
           ("message", Value.str (blockedMessage "DELETE"))] ∧
      (∃ s1 s2, blockedMessage "DELETE" = s1 ++ ("DELETE" ++ s2))) :=
  ⟨by decide,
   c6_blocked_rule_embedded_in_message sampleStore.runQuery "DELETE FROM orders" "DELETE"
     (by decide)⟩

/-- The per-field projection built by the `get_schema` loop is the
identity on column descriptors, so declared order is preserved. -/
theorem column_map_id (l : List Column) :
    l.map (fun field => Column.mk field.name field.field_type field.mode) = l := by
  induction l with
  | nil => rfl
  | cons c t ih => simp [ih]

/-- C9: `get_schema` resolves the bare name against
`PROJECT_ID.DATASET_ID`; on success it returns the column descriptors
in the store's declared order plus the row count, and a resolution
failure becomes an `Error` envelope rather than an exception. -/
theorem c9_get_schema_resolution_and_order
    (getTable : String → Except String Table) (table_name : String) :
    (∀ table, getTable (PROJECT_ID ++ "." ++ DATASET_ID ++ "." ++ table_name)
          = Except.ok table →
      get_schema getTable table_name
        = [("status", Value.str "success"),
           ("table", Value.str (PROJECT_ID ++ "." ++ DATASET_ID ++ "." ++ table_name)),
           ("total_rows", Value.nat table.num_rows),
           ("columns", Value.colList table.schema)]) ∧
    (∀ e, getTable (PROJECT_ID ++ "." ++ DATASET_ID ++ "." ++ table_name)
          = Except.error e →
      get_schema getTable table_name
        = [("status", Value.str "error"), ("message", Value.str e)]) := by
  constructor
  · intro table htab
    simp [get_schema, htab, column_map_id]
  · intro e herr
    simp [get_schema, herr]

/-- Table metadata used by the C9 witness: the `products` example from
the spec, with columns `product_id INT64` and `is_active BOOL`. -/
def sampleTable : Table :=
  ⟨[⟨"product_id", "INT64", "NULLABLE"⟩, ⟨"is_active", "BOOL", "NULLABLE"⟩], 50⟩

/-- Witness for C9 at the table name `products`. -/
theorem c9_witness :
    ((fun _ : String => (Except.ok sampleTable : Except String Table))
        (PROJECT_ID ++ "." ++ DATASET_ID ++ "." ++ "products") = Except.ok sampleTable) ∧
    get_schema (fun _ => Except.ok sampleTable) "products"
      = [("status", Value.str "success"),
         ("table", Value.str (PROJECT_ID ++ "." ++ DATASET_ID ++ "." ++ "products")),
         ("total_rows", Value.nat sampleTable.num_rows),
         ("columns", Value.colList sampleTable.schema)] :=
  ⟨rfl,
   (c9_get_schema_resolution_and_order (fun _ => Except.ok sampleTable) "products").1
     sampleTable rfl⟩

/-- C7: audit-sink failure is invisible to the caller — for any
pattern of pre- and post-record logging failures, every dispatch returns
exactly the envelope of a run with a healthy sink, so a logging
failure is never escalated to an `Error` envelope. -/
theorem c7_logging_failure_invisible
    (st : Store) (logFails : AuditRecord → Bool) (name arg : String) :
    (dispatch st logFails name arg).1 = (dispatch st (fun _ => false) name arg).1 := by
  unfold dispatch
  by_cases h : name ∈ registry <;> simp [h]

/-- C8: dispatching a known registered tool name with a healthy audit
sink returns the tool body's envelope unchanged, and the event order is
exactly one pre-call audit record, then the body's store calls, then
one post-call audit record — for every store outcome. -/
theorem c8_exactly_two_audit_records
    (st : Store) (name arg : String) (hname : name ∈ registry) :
    (dispatch st (fun _ => false) name arg).1 = (toolBody st name arg).1 ∧
    (dispatch st (fun _ => false) name arg).2
      = Event.audit (AuditRecord.pre name (preview 200 arg))
        :: ((toolBody st name arg).2.map Event.storeCall
            ++ [Event.audit (AuditRecord.post name
                  (preview 300 (renderDict (toolBody st name arg).1)))]) := by
  unfold dispatch
  simp [hname, emitRecord]

/-- Witness for C8 at the registered name `list_tables`. -/
theorem c8_witness :
    ("list_tables" ∈ registry) ∧
    ((dispatch sampleStore (fun _ => false) "list_tables" "").1
        = (toolBody sampleStore "list_tables" "").1 ∧
      (dispatch sampleStore (fun _ => false) "list_tables" "").2
        = Event.audit (AuditRecord.pre "list_tables" (preview 200 ""))
          :: ((toolBody sampleStore "list_tables" "").2.map Event.storeCall
              ++ [Event.audit (AuditRecord.post "list_tables"
                    (preview 300 (renderDict (toolBody sampleStore "list_tables" "").1)))])) :=
  ⟨by decide,
   c8_exactly_two_audit_records sampleStore "list_tables" "" (by decide)⟩

end EcomAgent
